import Mathlib

/-!
Verification of the iterative blog-creation workflow: session state,
persistence, iteration governor, review aggregation, feedback
reconciliation and the CLI orchestration, shallowly embedded from
`src/amplifier_app_blog_creator` (session.py, vendored_toolkit/file_ops.py,
core/models.py, reviewers/style_reviewer.py, cli/main.py,
cli/input_handler.py, core/workflow.py).

Python floats are modelled as rationals, timestamps as opaque strings
supplied by the caller, and JSON documents by the inductive `JsonVal`.
-/

/-- JSON values, as produced by `json.dump`/`json.load` and by
`dataclasses.asdict` on `SessionState`. -/
inductive JsonVal where
  | null : JsonVal
  | bool (b : Bool) : JsonVal
  | int (n : Int) : JsonVal
  | num (q : ℚ) : JsonVal
  | str (s : String) : JsonVal
  | arr (xs : List JsonVal) : JsonVal
  | obj (kvs : List (String × JsonVal)) : JsonVal

/-- A Python `dict[str, Any]` as it appears in session records. -/
abbrev Dict := List (String × JsonVal)

/-- A Python `dict[str, str]` (the element type of `SessionState.errors`). -/
abbrev StrDict := List (String × String)

/-- `d[k]` lookup / `d.get(k)`: first binding of `k`, if any. -/
def dlookup : Dict → String → Option JsonVal
  | [], _ => none
  | (k, v) :: rest, key => if k = key then some v else dlookup rest key

/-- `d[k] = v` assignment on a Python dict: overwrite the existing binding
in place, or append a new one. -/
def dictSet : Dict → String → JsonVal → Dict
  | [], key, val => [(key, val)]
  | (k, v) :: rest, key, val =>
    if k = key then (k, val) :: rest else (k, v) :: dictSet rest key val

/-- Python truthiness of a JSON value (`bool(v)`). -/
def JsonVal.truthy : JsonVal → Bool
  | .null => false
  | .bool b => b
  | .int n => n ≠ 0
  | .num q => q ≠ 0
  | .str s => s ≠ ""
  | .arr xs => !xs.isEmpty
  | .obj kvs => !kvs.isEmpty

/-! Typed encoders/decoders for the field shapes occurring in
`SessionState`; `enc*` is the shape `asdict` + `json.dump` produces and
`dec*` the typed reading of a loaded value. -/

def encStr (s : String) : JsonVal := .str s

def decStr : JsonVal → Option String
  | .str s => some s
  | _ => none

def encOptStr : Option String → JsonVal
  | none => .null
  | some s => .str s

def decOptStr : JsonVal → Option (Option String)
  | .null => some none
  | .str s => some (some s)
  | _ => none

def encInt (n : Int) : JsonVal := .int n

def decInt : JsonVal → Option Int
  | .int n => some n
  | _ => none

def encOptInt : Option Int → JsonVal
  | none => .null
  | some n => .int n

def decOptInt : JsonVal → Option (Option Int)
  | .null => some none
  | .int n => some (some n)
  | _ => none

def encBool (b : Bool) : JsonVal := .bool b

def decBool : JsonVal → Option Bool
  | .bool b => some b
  | _ => none

def encRat (q : ℚ) : JsonVal := .num q

def decRat : JsonVal → Option ℚ
  | .num q => some q
  | _ => none

def encDict (d : Dict) : JsonVal := .obj d

def decDict : JsonVal → Option Dict
  | .obj d => some d
  | _ => none

/-- Decode every element of a JSON array, failing if any element fails. -/
def decodeList (dec : JsonVal → Option α) : List JsonVal → Option (List α)
  | [] => some []
  | v :: vs =>
    match dec v, decodeList dec vs with
    | some a, some as => some (a :: as)
    | _, _ => none

/-- Decode every value of a JSON object, failing if any value fails. -/
def decodePairs (dec : JsonVal → Option α) :
    List (String × JsonVal) → Option (List (String × α))
  | [] => some []
  | (k, v) :: rest =>
    match dec v, decodePairs dec rest with
    | some a, some as => some ((k, a) :: as)
    | _, _ => none

def encDictList (l : List Dict) : JsonVal := .arr (l.map JsonVal.obj)

def decDictList : JsonVal → Option (List Dict)
  | .arr vs => decodeList decDict vs
  | _ => none

def encStrDict (d : StrDict) : JsonVal :=
  .obj (d.map fun kv => (kv.1, .str kv.2))

def decStrDict : JsonVal → Option StrDict
  | .obj kvs => decodePairs decStr kvs
  | _ => none

def encStrDictList (l : List StrDict) : JsonVal := .arr (l.map encStrDict)

def decStrDictList : JsonVal → Option (List StrDict)
  | .arr vs => decodeList decStrDict vs
  | _ => none

/-- The `SessionState` dataclass of `session.py` (field order as declared).
`iteration` and `max_iterations` are Python ints; `max_iterations` is
checked against `None` in `increment_iteration`, so it is an `Option`. -/
structure SessionState where
  session_id : String
  created_at : String
  updated_at : String
  idea_path : Option String
  writings_dir : Option String
  output_path : Option String
  additional_instructions : Option String
  api_key : Option String
  stage : String
  iteration : Int
  max_iterations : Option Int
  style_profile : Dict
  current_draft : String
  source_review : Dict
  style_review : Dict
  user_feedback : List Dict
  iteration_history : List Dict
  illustration_enabled : Bool
  illustration_points : List Dict
  prompts : List Dict
  images : List Dict
  total_cost : ℚ
  analysis_complete : Bool
  prompts_complete : Bool
  images_complete : Bool
  markdown_complete : Bool
  images_generated : Int
  errors : List StrDict
  style_params : Dict

/-- `SessionState(session_id=sid)` with every other field at its dataclass
default; `createdIso` stands for the `datetime.now().isoformat()`
default-factory value for `created_at`/`updated_at`. -/
def SessionState.new (sid createdIso : String) : SessionState where
  session_id := sid
  created_at := createdIso
  updated_at := createdIso
  idea_path := none
  writings_dir := none
  output_path := none
  additional_instructions := none
  api_key := none
  stage := "initialized"
  iteration := 0
  max_iterations := some 10
  style_profile := []
  current_draft := ""
  source_review := []
  style_review := []
  user_feedback := []
  iteration_history := []
  illustration_enabled := false
  illustration_points := []
  prompts := []
  images := []
  total_cost := 0
  analysis_complete := false
  prompts_complete := false
  images_complete := false
  markdown_complete := false
  images_generated := 0
  errors := []
  style_params := []

/-- The declared field names of the `SessionState` dataclass; any other
keyword to `SessionState(**data)` raises `TypeError`. -/
def sessionFieldNames : List String :=
  ["session_id", "created_at", "updated_at", "idea_path", "writings_dir",
   "output_path", "additional_instructions", "api_key", "stage",
   "iteration", "max_iterations", "style_profile", "current_draft",
   "source_review", "style_review", "user_feedback", "iteration_history",
   "illustration_enabled", "illustration_points", "prompts", "images",
   "total_cost", "analysis_complete", "prompts_complete",
   "images_complete", "markdown_complete", "images_generated", "errors",
   "style_params"]

/-- `dataclasses.asdict(state)`: the JSON document `SessionManager.save`
writes (fields in declaration order). -/
def asdict (s : SessionState) : Dict :=
  [("session_id", encStr s.session_id),
   ("created_at", encStr s.created_at),
   ("updated_at", encStr s.updated_at),
   ("idea_path", encOptStr s.idea_path),
   ("writings_dir", encOptStr s.writings_dir),
   ("output_path", encOptStr s.output_path),
   ("additional_instructions", encOptStr s.additional_instructions),
   ("api_key", encOptStr s.api_key),
   ("stage", encStr s.stage),
   ("iteration", encInt s.iteration),
   ("max_iterations", encOptInt s.max_iterations),
   ("style_profile", encDict s.style_profile),
   ("current_draft", encStr s.current_draft),
   ("source_review", encDict s.source_review),
   ("style_review", encDict s.style_review),
   ("user_feedback", encDictList s.user_feedback),
   ("iteration_history", encDictList s.iteration_history),
   ("illustration_enabled", encBool s.illustration_enabled),
   ("illustration_points", encDictList s.illustration_points),
   ("prompts", encDictList s.prompts),
   ("images", encDictList s.images),
   ("total_cost", encRat s.total_cost),
   ("analysis_complete", encBool s.analysis_complete),
   ("prompts_complete", encBool s.prompts_complete),
   ("images_complete", encBool s.images_complete),
   ("markdown_complete", encBool s.markdown_complete),
   ("images_generated", encInt s.images_generated),
   ("errors", encStrDictList s.errors),
   ("style_params", encDict s.style_params)]

/-- Read field `k` of a loaded document: absent keys take the dataclass
default `dflt`; present keys must have the field's shape. -/
def fieldD (d : Dict) (k : String) (dec : JsonVal → Option α) (dflt : α) :
    Option α :=
  match dlookup d k with
  | none => some dflt
  | some v => dec v

/-- `SessionState(**data)` on a loaded JSON document (the typed-record
view): fails on an unknown key (`TypeError`), on a missing `session_id`,
or on a value that does not fit its field; absent optional fields take
their dataclass defaults. `nowIso` stands for the `datetime.now()`
default-factory timestamp used when `created_at`/`updated_at` are absent. -/
def sessionStateOfDict (nowIso : String) (d : Dict) : Option SessionState :=
  if d.all (fun kv => sessionFieldNames.contains kv.1) then
    match (dlookup d "session_id").bind decStr,
      fieldD d "created_at" decStr nowIso,
      fieldD d "updated_at" decStr nowIso,
      fieldD d "idea_path" decOptStr none,
      fieldD d "writings_dir" decOptStr none,
      fieldD d "output_path" decOptStr none,
      fieldD d "additional_instructions" decOptStr none,
      fieldD d "api_key" decOptStr none,
      fieldD d "stage" decStr "initialized",
      fieldD d "iteration" decInt 0,
      fieldD d "max_iterations" decOptInt (some 10),
      fieldD d "style_profile" decDict [],
      fieldD d "current_draft" decStr "",
      fieldD d "source_review" decDict [],
      fieldD d "style_review" decDict [],
      fieldD d "user_feedback" decDictList [],
      fieldD d "iteration_history" decDictList [],
      fieldD d "illustration_enabled" decBool false,
      fieldD d "illustration_points" decDictList [],
      fieldD d "prompts" decDictList [],
      fieldD d "images" decDictList [],
      fieldD d "total_cost" decRat 0,
      fieldD d "analysis_complete" decBool false,
      fieldD d "prompts_complete" decBool false,
      fieldD d "images_complete" decBool false,
      fieldD d "markdown_complete" decBool false,
      fieldD d "images_generated" decInt 0,
      fieldD d "errors" decStrDictList [],
      fieldD d "style_params" decDict [] with
    | some session_id, some created_at, some updated_at, some idea_path,
      some writings_dir, some output_path, some additional_instructions,
      some api_key, some stage, some iteration, some max_iterations,
      some style_profile, some current_draft, some source_review,
      some style_review, some user_feedback, some iteration_history,
      some illustration_enabled, some illustration_points, some prompts,
      some images, some total_cost, some analysis_complete,
      some prompts_complete, some images_complete, some markdown_complete,
      some images_generated, some errors, some style_params =>
        some { session_id, created_at, updated_at, idea_path, writings_dir,
               output_path, additional_instructions, api_key, stage, iteration,
               max_iterations, style_profile, current_draft, source_review,
               style_review, user_feedback, iteration_history,
               illustration_enabled, illustration_points, prompts, images,
               total_cost, analysis_complete, prompts_complete, images_complete,
               markdown_complete, images_generated, errors, style_params }
    | _, _, _, _, _, _, _, _, _, _, _, _, _, _, _, _, _, _, _, _, _, _, _, _,
      _, _, _, _, _ => none
  else
    none

/-! `SessionManager` operations (session.py). Wall-clock timestamps are
inputs: `now` stands for `datetime.now().isoformat()` and `ts` for
`datetime.now().strftime("%Y%m%d_%H%M%S")` at the moment of the call.
Each mutator's effect on the in-memory `self.state` is modelled; the
write to disk is modelled separately (`write_json` below). -/

namespace SessionManager

/-- `save()`'s effect on `self.state`: it stamps `updated_at` before
serializing; the serialized record is `asdict` of this state. Exceptions
from the write are caught inside `save`. -/
def saveRecord (now : String) (s : SessionState) : SessionState :=
  { s with updated_at := now }

/-- `update_stage(stage)`: set `stage`, then `save()`. -/
def update_stage (now stage : String) (s : SessionState) : SessionState :=
  saveRecord now { s with stage := stage }

/-- Result of `increment_iteration()`: the returned boolean, the
in-memory state after the call, and whether `save()` was reached. -/
structure IncResult where
  ok : Bool
  state : SessionState
  saved : Bool

/-- `increment_iteration()`: increments `self.state.iteration` first,
then rejects (returns `False`, without saving) when the incremented value
exceeds a non-`None` `max_iterations`; otherwise saves and returns
`True`. -/
def increment_iteration (now : String) (s : SessionState) : IncResult :=
  let s1 := { s with iteration := s.iteration + 1 }
  match s1.max_iterations with
  | some m =>
    if s1.iteration > m then ⟨false, s1, false⟩
    else ⟨true, saveRecord now s1, true⟩
  | none => ⟨true, saveRecord now s1, true⟩

/-- `add_iteration_history(entry)`: tags the entry with the current
iteration and a timestamp, appends it, saves. -/
def add_iteration_history (now : String) (entry : Dict) (s : SessionState) :
    SessionState :=
  let entry := dictSet entry "iteration" (.int s.iteration)
  let entry := dictSet entry "timestamp" (.str now)
  saveRecord now { s with iteration_history := s.iteration_history ++ [entry] }

/-- `set_style_profile(profile)`. -/
def set_style_profile (now : String) (profile : Dict) (s : SessionState) :
    SessionState :=
  saveRecord now { s with style_profile := profile }

/-- `update_draft(draft)`: updates `current_draft` (the per-iteration
draft file write is a separate file, not part of the state record),
saves. -/
def update_draft (now : String) (draft : String) (s : SessionState) :
    SessionState :=
  saveRecord now { s with current_draft := draft }

/-- `set_source_review(review)`. -/
def set_source_review (now : String) (review : Dict) (s : SessionState) :
    SessionState :=
  saveRecord now { s with source_review := review }

/-- `set_style_review(review)`. -/
def set_style_review (now : String) (review : Dict) (s : SessionState) :
    SessionState :=
  saveRecord now { s with style_review := review }

/-- `add_user_feedback(feedback)`: tags with the current iteration,
appends, saves. -/
def add_user_feedback (now : String) (feedback : Dict) (s : SessionState) :
    SessionState :=
  let feedback := dictSet feedback "iteration" (.int s.iteration)
  saveRecord now { s with user_feedback := s.user_feedback ++ [feedback] }

/-- `add_error(stage, error)`. -/
def add_error (now stage error : String) (s : SessionState) : SessionState :=
  saveRecord now { s with errors := s.errors ++ [[("stage", stage), ("error", error)]] }

/-- `mark_stage_complete(stage)` (illustration-phase flags). -/
def mark_stage_complete (now stage : String) (s : SessionState) : SessionState :=
  let s :=
    if stage = "analysis" then { s with analysis_complete := true }
    else if stage = "prompts" then { s with prompts_complete := true }
    else if stage = "images" then { s with images_complete := true }
    else if stage = "markdown" then { s with markdown_complete := true }
    else s
  saveRecord now s

/-- `is_complete()`. -/
def is_complete (s : SessionState) : Bool := s.stage = "complete"

/-- `mark_complete()`: `update_stage("complete")`. -/
def mark_complete (now : String) (s : SessionState) : SessionState :=
  update_stage now "complete" s

/-- `reset()`: replaces the state with
`SessionState(session_id=datetime.now().strftime(...))` and saves; `ts`
is the strftime timestamp, `iso` the isoformat one used by the
default factories and the save stamp. The old state is not consulted. -/
def reset (ts iso : String) : SessionState :=
  saveRecord iso (SessionState.new ts iso)

end SessionManager

/-- What `_load_state` finds at `self.state_file`. -/
inductive FileContent where
  | missing : FileContent
  | readFailure : FileContent
  | invalidJson : FileContent
  | json (d : Dict) : FileContent

/-- `_load_state()`: a missing file, a read failure, invalid JSON, or a
document rejected by `SessionState(**data)` all yield a brand-new
`SessionState` whose id is the current strftime timestamp; every
exception in the try block is caught. -/
def load_state (ts iso : String) : FileContent → SessionState
  | .missing => SessionState.new ts iso
  | .readFailure => SessionState.new ts iso
  | .invalidJson => SessionState.new ts iso
  | .json d =>
    match sessionStateOfDict iso d with
    | some s => s
    | none => SessionState.new ts iso

/-! The durable store (vendored_toolkit/file_ops.py, `write_json`).
I/O is modelled by an oracle giving the outcome of each write attempt. -/

/-- Outcome of one attempt to write the temp file and rename it. -/
inductive WriteAttempt where
  | ok : WriteAttempt
  | ioErr (errno : Int) : WriteAttempt
  | otherErr : WriteAttempt

/-- One step of `write_json`'s retry loop. `remaining` is the number of
loop iterations left (`max_retries - attempt`), `attempt` the 0-based
attempt index, `delay` the current backoff delay in seconds, `ds` the
sleeps performed so far. Returns the raised exception (if any) and the
list of sleep delays. -/
def write_json_go (outcomes : Nat → WriteAttempt) (maxRetries : Nat) :
    Nat → Nat → ℚ → List ℚ → Except WriteAttempt Unit × List ℚ
  | 0, _, _, ds => (.ok (), ds)
  | remaining + 1, attempt, delay, ds =>
    match outcomes attempt with
    | .ok => (.ok (), ds)
    | .ioErr e =>
      if e = 5 ∧ attempt < maxRetries - 1 then
        write_json_go outcomes maxRetries remaining (attempt + 1) (delay * 2)
          (ds ++ [delay])
      else (.error (.ioErr e), ds)
    | .otherErr => (.error .otherErr, ds)

/-- `write_json(data, path)` with the default `max_retries = 3`:
retries transient I/O errors (`errno == 5`) with exponential backoff
starting at 0.5 s, re-raises anything else, raises after exhausting the
attempts. -/
def write_json (outcomes : Nat → WriteAttempt) :
    Except WriteAttempt Unit × List ℚ :=
  write_json_go outcomes 3 3 0 (1/2) []

/-- `SessionManager.save()` including its persistence effect: the new
in-memory state (always returned to the manager, whether or not the
write succeeded — the `except` clause only logs) and whether the record
was durably written. `save` returns `None` in the source, so the second
component is invisible to its caller. -/
def saveWithStore (outcomes : Nat → WriteAttempt) (now : String)
    (s : SessionState) : SessionState × Bool :=
  let s' := SessionManager.saveRecord now s
  match (write_json outcomes).1 with
  | .ok _ => (s', true)
  | .error _ => (s', false)

/-! Core models (core/models.py). -/

/-- `d.get(k, False)` used as a boolean (Python truthiness). -/
def getTruthyD (d : Dict) (k : String) : Bool :=
  match dlookup d k with
  | none => false
  | some v => v.truthy

/-- `d.get("issues", [])` as the list of issue strings (reviewer outputs
carry `issues: list[str]`; pydantic enforces `list[str]` downstream). -/
def getIssues (d : Dict) : List String :=
  match dlookup d "issues" with
  | some (.arr vs) => (decodeList decStr vs).getD []
  | _ => []

/-- `ReviewResult`: the two reviewer output dicts. -/
structure ReviewResult where
  source_review : Dict
  style_review : Dict

/-- `ReviewResult.needs_revision`:
`source_review.get("needs_revision", False) or style_review.get("needs_revision", False)`. -/
def ReviewResult.needsRevision (r : ReviewResult) : Bool :=
  getTruthyD r.source_review "needs_revision" ||
    getTruthyD r.style_review "needs_revision"

/-- `ReviewResult.source_issues`. -/
def ReviewResult.sourceIssues (r : ReviewResult) : List String :=
  getIssues r.source_review

/-- `ReviewResult.style_issues`. -/
def ReviewResult.styleIssues (r : ReviewResult) : List String :=
  getIssues r.style_review

/-- The closed action enumeration of `RevisionFeedback`. -/
inductive FeedbackAction where
  | approve : FeedbackAction
  | revise : FeedbackAction
  | skip : FeedbackAction

/-- `RevisionFeedback` (core/models.py). -/
structure RevisionFeedback where
  action : FeedbackAction
  source_issues : List String
  style_issues : List String
  user_requests : List String

/-- `RevisionFeedback.is_approved`: `action == "approve"`. -/
def RevisionFeedback.isApproved (f : RevisionFeedback) : Bool :=
  match f.action with
  | .approve => true
  | _ => false

/-- `RevisionFeedback.has_feedback`:
`bool(user_requests) or action == "revise"`. -/
def RevisionFeedback.hasFeedback (f : RevisionFeedback) : Bool :=
  !f.user_requests.isEmpty ||
    (match f.action with
     | .revise => true
     | _ => false)

/-! Style reviewer (reviewers/style_reviewer.py, `review_style`):
validation and threshold forcing applied to a parsed model response. -/

/-- The fields read out of the parsed JSON response (`parsed.get(...)`);
`none` means the key was absent. -/
structure ParsedStyle where
  consistency_score : Option ℚ
  matches_tone : Option Bool
  matches_voice : Option Bool
  issues : List String
  suggestions : List String
  needs_revision : Option Bool

/-- The `review_data` record the reviewer assembles. -/
structure StyleReviewData where
  consistency_score : ℚ
  matches_tone : Bool
  matches_voice : Bool
  issues : List String
  suggestions : List String
  needs_revision : Bool

/-- `review_data = {...}`: defaults 0.8 / True / True / False for absent
keys. -/
def buildReviewData (p : ParsedStyle) : StyleReviewData where
  consistency_score := p.consistency_score.getD (8/10)
  matches_tone := p.matches_tone.getD true
  matches_voice := p.matches_voice.getD true
  issues := p.issues
  suggestions := p.suggestions
  needs_revision := p.needs_revision.getD false

/-- The three forcing rules after `review_data` is built: score `< 0.7`,
non-empty issues list, and tone/voice mismatch each force
`needs_revision = True`. -/
def applyStyleThresholds (r : StyleReviewData) : StyleReviewData :=
  let r := if r.consistency_score < 7/10 then { r with needs_revision := true } else r
  let r := if !r.issues.isEmpty then { r with needs_revision := true } else r
  let r := if !r.matches_tone || !r.matches_voice then { r with needs_revision := true } else r
  r

/-- `review_style` on a successfully parsed response: build
`review_data`, then apply the forcing rules. -/
def review_style_data (p : ParsedStyle) : StyleReviewData :=
  applyStyleThresholds (buildReviewData p)

/-- `_default_review()`: the safe verdict substituted on any failure. -/
def default_style_review : StyleReviewData where
  consistency_score := 8/10
  matches_tone := true
  matches_voice := true
  issues := []
  suggestions := []
  needs_revision := false

/-! CLI workflow (cli/main.py, cli/input_handler.py, core/workflow.py). -/

/-- The observations `CLIInputHandler.get_feedback` makes of the parsed
user input: `parsed.get("is_approved")`, `parsed.get("has_feedback")`,
and the formatted `user_requests`. The interactive handler itself is an
external input source. -/
structure ParsedUserInput where
  is_approved : Bool
  has_feedback : Bool
  user_requests : List String

/-- `CLIInputHandler.get_feedback`: converts the parsed input and the two
reviewer issue lists into a `RevisionFeedback`. -/
def cliGetFeedback (parsed : ParsedUserInput)
    (source_issues style_issues : List String) : RevisionFeedback :=
  if parsed.is_approved then
    ⟨.approve, source_issues, style_issues, []⟩
  else if !parsed.has_feedback then
    ⟨.skip, source_issues, style_issues, []⟩
  else
    ⟨.revise, source_issues, style_issues, parsed.user_requests⟩

/-- The operations `run_cli_workflow` can invoke on the workflow object. -/
inductive WorkflowOp where
  | styleExtraction : WorkflowOp
  | draftGeneration : WorkflowOp
  | review : WorkflowOp
  | revision : WorkflowOp

/-- External inputs to one CLI run: per-iteration review results, parsed
user input and revised drafts from the external capabilities, the style
profile and initial draft, and one opaque timestamp standing in for the
save stamps. -/
structure CliEnv where
  reviews : Nat → ReviewResult
  userInput : Nat → ParsedUserInput
  revisedDrafts : Nat → String
  styleProfile : Dict
  initialDraft : String
  iso : String

/-- `BlogCreatorWorkflow.run_style_extraction`: store the profile, move
to `style_extracted`. -/
def runStyleExtractionS (env : CliEnv) (s : SessionState) : SessionState :=
  SessionManager.update_stage env.iso "style_extracted"
    (SessionManager.set_style_profile env.iso env.styleProfile s)

/-- `BlogCreatorWorkflow.run_draft_generation`: store the draft, move to
`draft_written`. -/
def runDraftGenerationS (env : CliEnv) (s : SessionState) : SessionState :=
  SessionManager.update_stage env.iso "draft_written"
    (SessionManager.update_draft env.iso env.initialDraft s)

/-- `BlogCreatorWorkflow.run_review`: store both reviewer outputs. -/
def runReviewS (env : CliEnv) (r : ReviewResult) (s : SessionState) :
    SessionState :=
  SessionManager.set_style_review env.iso r.style_review
    (SessionManager.set_source_review env.iso r.source_review s)

/-- `BlogCreatorWorkflow.run_revision`: store the revised draft, move to
`revision_complete`. -/
def runRevisionS (env : CliEnv) (revised : String) (s : SessionState) :
    SessionState :=
  SessionManager.update_stage env.iso "revision_complete"
    (SessionManager.update_draft env.iso revised s)

/-- What the loop body does with the user's feedback on one iteration
(cli/main.py lines 151-163): approval breaks; no actionable feedback
triggers an automatic revision exactly when the review found issues,
otherwise the iteration performs no revision; explicit feedback always
revises. -/
inductive LoopDecision where
  | approveBreak : LoopDecision
  | autoRevise (fb : RevisionFeedback) : LoopDecision
  | continueNoRevision : LoopDecision
  | userRevise (fb : RevisionFeedback) : LoopDecision

/-- The feedback branch of the loop body, verbatim from cli/main.py
lines 151-163. -/
def feedbackDecision (review : ReviewResult) (fb : RevisionFeedback) :
    LoopDecision :=
  if fb.isApproved then .approveBreak
  else if !fb.hasFeedback then
    if review.needsRevision then .autoRevise fb else .continueNoRevision
  else .userRevise fb

/-- The review/revision loop of `run_cli_workflow` (lines 135-163),
traced: each invoked workflow operation is recorded with the value of
`session.state.stage` at the moment of the call. `fuel` bounds the
number of loop iterations simulated. -/
def cliLoop (env : CliEnv) :
    Nat → SessionState → List (WorkflowOp × String) × SessionState
  | 0, s => ([], s)
  | fuel + 1, s =>
    if s.stage = "draft_written" ∨ s.stage = "revision_complete" then
      let inc := SessionManager.increment_iteration env.iso s
      if !inc.ok then ([], inc.state)
      else
        let s := inc.state
        let n := s.iteration.toNat
        let review := env.reviews n
        let trHead := [(WorkflowOp.review, s.stage)]
        let s := runReviewS env review s
        let fb := cliGetFeedback (env.userInput n) review.sourceIssues
          review.styleIssues
        match feedbackDecision review fb with
        | .approveBreak => (trHead, s)
        | .autoRevise _ =>
          let (t, s') := cliLoop env fuel (runRevisionS env (env.revisedDrafts n) s)
          (trHead ++ [(WorkflowOp.revision, s.stage)] ++ t, s')
        | .continueNoRevision =>
          let (t, s') := cliLoop env fuel s
          (trHead ++ t, s')
        | .userRevise _ =>
          let (t, s') := cliLoop env fuel (runRevisionS env (env.revisedDrafts n) s)
          (trHead ++ [(WorkflowOp.revision, s.stage)] ++ t, s')
    else ([], s)

/-- The stage-guarded part of `run_cli_workflow` before the loop
(lines 125-132): style extraction iff the live stage is `initialized`,
then draft generation iff the live stage is `style_extracted`. -/
def preLoop (env : CliEnv) (s : SessionState) :
    List (WorkflowOp × String) × SessionState :=
  let (t1, s1) :=
    if s.stage = "initialized" then
      ([(WorkflowOp.styleExtraction, s.stage)], runStyleExtractionS env s)
    else ([], s)
  let (t2, s2) :=
    if s1.stage = "style_extracted" then
      (t1 ++ [(WorkflowOp.draftGeneration, s1.stage)], runDraftGenerationS env s1)
    else (t1, s1)
  (t2, s2)

/-- `run_cli_workflow` up to loop exit: pre-loop stage dispatch, then the
review/revision loop. -/
def cliRun (env : CliEnv) (fuel : Nat) (s : SessionState) :
    List (WorkflowOp × String) × SessionState :=
  let (t1, s1) := preLoop env s
  let (t2, s2) := cliLoop env fuel s1
  (t1 ++ t2, s2)

/-- Session setup in `main` (cli/main.py lines 57-72): the loaded or
fresh state, optionally reset, then `session.state.max_iterations =
max_iterations` from the command-line flag on every invocation. -/
def cliMainSetup (loaded : SessionState) (doReset : Bool) (ts iso : String)
    (maxIterations : Int) : SessionState :=
  let s := if doReset then SessionManager.reset ts iso else loaded
  { s with max_iterations := some maxIterations }

/-- The `SessionManager` mutators (everything except `reset`, which
replaces the record) as a syntax of operation sequences. -/
inductive SessionOp where
  | save (now : String) : SessionOp
  | updateStage (now stage : String) : SessionOp
  | incrementIteration (now : String) : SessionOp
  | addIterationHistory (now : String) (entry : Dict) : SessionOp
  | setStyleProfile (now : String) (profile : Dict) : SessionOp
  | updateDraft (now draft : String) : SessionOp
  | setSourceReview (now : String) (review : Dict) : SessionOp
  | setStyleReview (now : String) (review : Dict) : SessionOp
  | addUserFeedback (now : String) (feedback : Dict) : SessionOp
  | addError (now stage error : String) : SessionOp
  | markStageComplete (now stage : String) : SessionOp
  | markComplete (now : String) : SessionOp

/-- Effect of one `SessionManager` mutator on the in-memory state. -/
def SessionOp.apply : SessionOp → SessionState → SessionState
  | .save now, s => SessionManager.saveRecord now s
  | .updateStage now stage, s => SessionManager.update_stage now stage s
  | .incrementIteration now, s => (SessionManager.increment_iteration now s).state
  | .addIterationHistory now entry, s => SessionManager.add_iteration_history now entry s
  | .setStyleProfile now profile, s => SessionManager.set_style_profile now profile s
  | .updateDraft now draft, s => SessionManager.update_draft now draft s
  | .setSourceReview now review, s => SessionManager.set_source_review now review s
  | .setStyleReview now review, s => SessionManager.set_style_review now review s
  | .addUserFeedback now feedback, s => SessionManager.add_user_feedback now feedback s
  | .addError now stage error, s => SessionManager.add_error now stage error s
  | .markStageComplete now stage, s => SessionManager.mark_stage_complete now stage s
  | .markComplete now, s => SessionManager.mark_complete now s

/-- Apply a sequence of mutators left to right. -/
def applyOps : List SessionOp → SessionState → SessionState
  | [], s => s
  | op :: ops, s => applyOps ops (op.apply s)

/-- `k` successive calls of `increment_iteration`, each taking the
in-memory state returned by the previous call; `times k` is the save
stamp of the `k`-th call. -/
def incN (times : Nat → String) (s : SessionState) : Nat → SessionState
  | 0 => s
  | k + 1 => (SessionManager.increment_iteration (times k) (incN times s k)).state

@[simp] theorem decStr_encStr (s : String) : decStr (encStr s) = some s := rfl

@[simp] theorem decOptStr_encOptStr (s : Option String) :
    decOptStr (encOptStr s) = some s := by cases s <;> rfl

@[simp] theorem decInt_encInt (n : Int) : decInt (encInt n) = some n := rfl

@[simp] theorem decOptInt_encOptInt (n : Option Int) :
    decOptInt (encOptInt n) = some n := by cases n <;> rfl

@[simp] theorem decBool_encBool (b : Bool) : decBool (encBool b) = some b := rfl

@[simp] theorem decRat_encRat (q : ℚ) : decRat (encRat q) = some q := rfl

@[simp] theorem decDict_encDict (d : Dict) : decDict (encDict d) = some d := rfl

@[simp] theorem decDictList_encDictList (l : List Dict) :
    decDictList (encDictList l) = some l := by
  induction l with
  | nil => rfl
  | cons d rest ih =>
    simp only [encDictList, decDictList, List.map_cons, decodeList] at *
    simp [ih, decDict]

@[simp] theorem decStrDict_encStrDict (d : StrDict) :
    decStrDict (encStrDict d) = some d := by
  induction d with
  | nil => rfl
  | cons kv rest ih =>
    simp only [encStrDict, decStrDict, List.map_cons, decodePairs] at *
    simp [ih, decStr]

@[simp] theorem decStrDictList_encStrDictList (l : List StrDict) :
    decStrDictList (encStrDictList l) = some l := by
  induction l with
  | nil => rfl
  | cons d rest ih =>
    simp only [encStrDictList, decStrDictList, List.map_cons, decodeList] at *
    simp [ih, decStrDict_encStrDict]

theorem sessionState_roundtrip (nowIso : String) (s : SessionState) :
    sessionStateOfDict nowIso (asdict s) = some s := by
  cases s
  simp [sessionStateOfDict, asdict, fieldD, dlookup, sessionFieldNames]

theorem increment_state_iteration (now : String) (s : SessionState) :
    (SessionManager.increment_iteration now s).state.iteration = s.iteration + 1 := by
  unfold SessionManager.increment_iteration
  rcases h : s.max_iterations with _ | m <;>
    simp [h, SessionManager.saveRecord]
  split <;> simp [SessionManager.saveRecord]

theorem increment_state_max (now : String) (s : SessionState) :
    (SessionManager.increment_iteration now s).state.max_iterations =
      s.max_iterations := by
  unfold SessionManager.increment_iteration
  rcases h : s.max_iterations with _ | m <;>
    simp [h, SessionManager.saveRecord]
  split <;> simp [h, SessionManager.saveRecord]

theorem incN_iteration (times : Nat → String) (s : SessionState) (k : Nat) :
    (incN times s k).iteration = s.iteration + k := by
  induction k with
  | zero => simp [incN]
  | succ k ih =>
    simp only [incN, increment_state_iteration, ih]
    push_cast
    ring

theorem incN_max (times : Nat → String) (s : SessionState) (k : Nat) :
    (incN times s k).max_iterations = s.max_iterations := by
  induction k with
  | zero => simp [incN]
  | succ k ih => simp only [incN, increment_state_max, ih]

/-- C1 (amended): with `max_iterations = N` and `iteration = 0`, the
first N calls of `increment_iteration` succeed and after them
`iteration = N`; the (N+1)th call returns `False` and does not persist,
but it does NOT leave the in-memory state unchanged: it has already set
`iteration = N + 1` before the bound check. -/
theorem iteration_governor_rejects_after_max (N : Nat) (times : Nat → String)
    (s : SessionState) (h0 : s.iteration = 0)
    (hm : s.max_iterations = some (N : Int)) :
    (∀ k : Nat, k < N →
      (SessionManager.increment_iteration (times k) (incN times s k)).ok = true) ∧
    (incN times s N).iteration = (N : Int) ∧
    (∀ k : Nat, N ≤ k →
      (SessionManager.increment_iteration (times k) (incN times s k)).ok = false ∧
      (SessionManager.increment_iteration (times k) (incN times s k)).state.iteration
        = (k : Int) + 1 ∧
      (SessionManager.increment_iteration (times k) (incN times s k)).saved = false) := by
  have hIter : ∀ k : Nat, (incN times s k).iteration = (k : Int) := by
    intro k; rw [incN_iteration, h0, zero_add]
  have hMax : ∀ k : Nat, (incN times s k).max_iterations = some (N : Int) := by
    intro k; rw [incN_max, hm]
  refine ⟨?_, hIter N, ?_⟩
  · intro k hk
    unfold SessionManager.increment_iteration
    simp only [hMax k]
    have : ¬ ((incN times s k).iteration + 1 > (N : Int)) := by
      rw [hIter k]; exact not_lt.mpr (by exact_mod_cast hk)
    simp [this]
  · intro k hk
    have hgt : ((N : Int) < (k : Int) + 1) := by exact_mod_cast Nat.lt_succ_of_le hk
    refine ⟨?_, ?_, ?_⟩ <;>
      · unfold SessionManager.increment_iteration
        simp only [hMax k, hIter k]
        simp [hgt]

/-- C1 witness: with `max_iterations = 1`, the first call succeeds, the
second is rejected with the in-memory iteration already at 2. -/
theorem iteration_governor_rejects_after_max_witness :
    (SessionManager.increment_iteration "t0"
      (incN (fun _ => "t0")
        { SessionState.new "s" "i" with max_iterations := some 1 } 0)).ok = true ∧
    (SessionManager.increment_iteration "t0"
      (incN (fun _ => "t0")
        { SessionState.new "s" "i" with max_iterations := some 1 } 1)).ok = false :=
  ⟨(iteration_governor_rejects_after_max 1 (fun _ => "t0")
      { SessionState.new "s" "i" with max_iterations := some 1 } rfl rfl).1 0
      (by decide),
   ((iteration_governor_rejects_after_max 1 (fun _ => "t0")
      { SessionState.new "s" "i" with max_iterations := some 1 } rfl rfl).2.2 1
      (by decide)).1⟩

/-- C1 counterexample: with `max_iterations = 1` and one successful
increment behind it, the rejected second call leaves `iteration = 2` in
the session state — not 1, and not unchanged. -/
theorem rejected_increment_modifies_iteration :
    (SessionManager.increment_iteration "t2"
      (SessionManager.increment_iteration "t1"
        { SessionState.new "s" "t0" with max_iterations := some 1 }).state).ok
      = false ∧
    (SessionManager.increment_iteration "t2"
      (SessionManager.increment_iteration "t1"
        { SessionState.new "s" "t0" with max_iterations := some 1 }).state).state.iteration
      = 2 := by
  constructor <;> rfl

theorem sessionOp_apply_max (op : SessionOp) (s : SessionState) :
    (op.apply s).max_iterations = s.max_iterations := by
  cases op <;>
    simp only [SessionOp.apply, SessionManager.saveRecord,
      SessionManager.update_stage, SessionManager.add_iteration_history,
      SessionManager.set_style_profile, SessionManager.update_draft,
      SessionManager.set_source_review, SessionManager.set_style_review,
      SessionManager.add_user_feedback, SessionManager.add_error,
      SessionManager.mark_stage_complete, SessionManager.mark_complete,
      increment_state_max]
  case markStageComplete now stage => split_ifs <;> rfl

/-- C4 (amended): no `SessionManager` mutator ever changes
`max_iterations` — across any sequence of session operations the field
is preserved. (The CLI entry point, however, overwrites it from the
`--max-iterations` flag on every invocation, including resumes: see the
counterexample.) -/
theorem session_ops_preserve_max_iterations (ops : List SessionOp)
    (s : SessionState) :
    (applyOps ops s).max_iterations = s.max_iterations := by
  induction ops generalizing s with
  | nil => rfl
  | cons op ops ih => rw [applyOps, ih, sessionOp_apply_max]

/-- C4 counterexample: a session persisted with `max_iterations = 5` and
resumed by a CLI invocation with the default flag value 10 ends up with
`max_iterations = 10`, not its creation value 5 — `main` assigns
`session.state.max_iterations = max_iterations` on every run. -/
theorem cli_setup_overwrites_max_iterations :
    (cliMainSetup
      { SessionState.new "a" "i" with max_iterations := some 5 }
      false "ts" "iso" 10).max_iterations = some 10 ∧
    ({ SessionState.new "a" "i" with max_iterations := some 5 } :
      SessionState).max_iterations = some 5 := by
  constructor <;> rfl

/-- C6: the aggregated `needs_revision` is the boolean OR of the two
reviewers' flags. -/
theorem needs_revision_is_or (a b : Bool) (sd td : Dict)
    (hs : dlookup sd "needs_revision" = some (.bool a))
    (ht : dlookup td "needs_revision" = some (.bool b)) :
    (ReviewResult.mk sd td).needsRevision = (a || b) := by
  simp [ReviewResult.needsRevision, getTruthyD, hs, ht, JsonVal.truthy]

/-- C6 witness: source says no revision, style says revision — the
aggregate flag is true. -/
theorem needs_revision_is_or_witness :
    (ReviewResult.mk [("needs_revision", JsonVal.bool false)]
      [("needs_revision", JsonVal.bool true)]).needsRevision = true :=
  needs_revision_is_or false true _ _ rfl rfl

/-- C8: the round-trip law — the record `save()` serializes
(`asdict` of the state with its fresh `updated_at` stamp) is decoded by
`_load_state` back to exactly the saved state, field by field. -/
theorem session_roundtrip_save_load (now ts iso : String) (s : SessionState) :
    load_state ts iso (.json (asdict (SessionManager.saveRecord now s))) =
      SessionManager.saveRecord now s := by
  simp [load_state, sessionState_roundtrip]

/-- C9 (amended): `reset()` installs a brand-new record with
`stage = "initialized"`, `iteration = 0`, `current_draft = ""`, and the
current strftime timestamp as its id; that id differs from the reset
session's id exactly when the timestamp string differs (the code takes
no step to guarantee it: second-granularity collisions reuse the id). -/
theorem reset_gives_fresh_initialized_state (old : SessionState)
    (ts iso : String) :
    (SessionManager.reset ts iso).stage = "initialized" ∧
    (SessionManager.reset ts iso).iteration = 0 ∧
    (SessionManager.reset ts iso).current_draft = "" ∧
    (ts ≠ old.session_id →
      (SessionManager.reset ts iso).session_id ≠ old.session_id) := by
  refine ⟨rfl, rfl, rfl, fun h => ?_⟩
  simpa [SessionManager.reset, SessionManager.saveRecord, SessionState.new]
    using h

/-- C9 witness: resetting a mid-workflow session at a later timestamp
yields the fresh initialized record with a distinct id. -/
theorem reset_gives_fresh_initialized_state_witness :
    (SessionManager.reset "20250102_000000" "i1").stage = "initialized" ∧
    (SessionManager.reset "20250102_000000" "i1").iteration = 0 ∧
    (SessionManager.reset "20250102_000000" "i1").current_draft = "" ∧
    (SessionManager.reset "20250102_000000" "i1").session_id ≠
      ({ SessionState.new "20250101_000000" "i0" with
          stage := "draft_written", iteration := 3 } : SessionState).session_id :=
  ⟨(reset_gives_fresh_initialized_state
      { SessionState.new "20250101_000000" "i0" with
        stage := "draft_written", iteration := 3 } "20250102_000000" "i1").1,
   (reset_gives_fresh_initialized_state
      { SessionState.new "20250101_000000" "i0" with
        stage := "draft_written", iteration := 3 } "20250102_000000" "i1").2.1,
   (reset_gives_fresh_initialized_state
      { SessionState.new "20250101_000000" "i0" with
        stage := "draft_written", iteration := 3 } "20250102_000000" "i1").2.2.1,
   (reset_gives_fresh_initialized_state
      { SessionState.new "20250101_000000" "i0" with
        stage := "draft_written", iteration := 3 } "20250102_000000" "i1").2.2.2
     (by decide)⟩

/-- C9 counterexample: `reset()` derives the new id from the current
second-granularity timestamp; resetting a session in the same second in
which it was created reproduces the identifier of the session that was
reset, so the new id is not always distinct. -/
theorem reset_can_reuse_identifier :
    (SessionManager.reset "20250101_000000" "i1").session_id =
      ({ SessionState.new "20250101_000000" "i0" with
          stage := "draft_written", iteration := 3 } :
        SessionState).session_id := rfl

/-- C10: when the state file exists but cannot be decoded into a session
record, `_load_state` neither raises nor reports: it returns the same
brand-new session (fresh timestamp id, `stage = "initialized"`,
`iteration = 0`) that a missing file produces, abandoning the persisted
progress; a read failure or invalid JSON behaves identically. -/
theorem corrupt_state_silently_replaced (ts iso : String) (d : Dict) :
    (sessionStateOfDict iso d = none →
      load_state ts iso (.json d) = load_state ts iso .missing) ∧
    load_state ts iso .missing = SessionState.new ts iso ∧
    load_state ts iso .readFailure = SessionState.new ts iso ∧
    load_state ts iso .invalidJson = SessionState.new ts iso ∧
    (SessionState.new ts iso).stage = "initialized" ∧
    (SessionState.new ts iso).iteration = 0 ∧
    (SessionState.new ts iso).session_id = ts := by
  refine ⟨fun h => ?_, rfl, rfl, rfl, rfl, rfl, rfl⟩
  simp [load_state, h]

/-- C10 witness: a document with an unexpected key is rejected by
`SessionState(**data)` and silently replaced by the fresh session. -/
theorem corrupt_state_silently_replaced_witness :
    load_state "t" "i" (.json [("bogus", JsonVal.null)]) =
      load_state "t" "i" .missing :=
  (corrupt_state_silently_replaced "t" "i" [("bogus", JsonVal.null)]).1 rfl

/-- C3 (amended): `write_json` retries transient (errno 5) failures with
exponential backoff — sleeps of 0.5 s then 1.0 s — and raises after its 3
attempts are exhausted; but `SessionManager.save` catches that exception
and only logs it: the state save returns to its caller exactly as on
success, so the caller of `save` is NOT told that the state was not
persisted. -/
theorem save_retries_but_swallows_failure (outcomes : Nat → WriteAttempt)
    (now : String) (s : SessionState) :
    ((saveWithStore outcomes now s).1 = SessionManager.saveRecord now s) ∧
    ((outcomes 0 = .ioErr 5 ∧ outcomes 1 = .ioErr 5 ∧ outcomes 2 = .ioErr 5) →
      write_json outcomes = (.error (.ioErr 5), [1/2, 1]) ∧
      (saveWithStore outcomes now s).2 = false) := by
  constructor
  · simp only [saveWithStore]
    split <;> rfl
  · rintro ⟨h0, h1, h2⟩
    have hw : write_json outcomes = (.error (.ioErr 5), [1/2, 1]) := by
      simp only [write_json, write_json_go, h0, h1, h2]
      norm_num
    refine ⟨hw, ?_⟩
    simp [saveWithStore, hw]

/-- C3 witness: an oracle failing all three attempts makes `write_json`
raise after backoff delays 0.5 s and 1.0 s, while `save` reports nothing. -/
theorem save_retries_but_swallows_failure_witness :
    write_json (fun _ => .ioErr 5) = (.error (.ioErr 5), [1/2, 1]) ∧
    (saveWithStore (fun _ => .ioErr 5) "t" (SessionState.new "s" "i")).2 = false :=
  (save_retries_but_swallows_failure (fun _ => .ioErr 5) "t"
      (SessionState.new "s" "i")).2 ⟨rfl, rfl, rfl⟩

/-- C3 counterexample: the caller-visible outcome of `save` is identical
whether every write attempt failed or the first succeeded — the caller
cannot learn that the state was not persisted. -/
theorem save_failure_invisible_to_caller :
    (saveWithStore (fun _ => .ioErr 5) "t" (SessionState.new "s" "i")).1 =
      (saveWithStore (fun _ => .ok) "t" (SessionState.new "s" "i")).1 ∧
    (saveWithStore (fun _ => .ioErr 5) "t" (SessionState.new "s" "i")).2 = false ∧
    (saveWithStore (fun _ => .ok) "t" (SessionState.new "s" "i")).2 = true := by
  refine ⟨?_, ?_, ?_⟩ <;> rfl

/-- C5: when the user's parsed input is neither approval nor actionable
feedback, `get_feedback` yields a `skip` tagged with exactly the
reviewer-found source and style issues and an empty user-request list;
the loop body then auto-revises with that feedback exactly when the
aggregated review needs revision, and performs no revision otherwise. -/
theorem skip_feedback_reconciliation (review : ReviewResult)
    (p : ParsedUserInput) (hA : p.is_approved = false)
    (hF : p.has_feedback = false) :
    (cliGetFeedback p review.sourceIssues review.styleIssues =
      ⟨.skip, review.sourceIssues, review.styleIssues, []⟩) ∧
    (review.needsRevision = true →
      feedbackDecision review
          (cliGetFeedback p review.sourceIssues review.styleIssues) =
        .autoRevise ⟨.skip, review.sourceIssues, review.styleIssues, []⟩) ∧
    (review.needsRevision = false →
      feedbackDecision review
          (cliGetFeedback p review.sourceIssues review.styleIssues) =
        .continueNoRevision) := by
  have hfb : cliGetFeedback p review.sourceIssues review.styleIssues =
      ⟨.skip, review.sourceIssues, review.styleIssues, []⟩ := by
    simp [cliGetFeedback, hA, hF]
  refine ⟨hfb, fun h => ?_, fun h => ?_⟩ <;>
    simp [feedbackDecision, hfb, h, RevisionFeedback.isApproved,
      RevisionFeedback.hasFeedback]

/-- C5 witness: reviewers found "fact X wrong", the user types nothing —
the iteration auto-revises with exactly that issue and no user requests. -/
theorem skip_feedback_reconciliation_witness :
    feedbackDecision
      (ReviewResult.mk
        [("needs_revision", JsonVal.bool true),
         ("issues", JsonVal.arr [JsonVal.str "fact X wrong"])] [])
      (cliGetFeedback ⟨false, false, []⟩
        (ReviewResult.mk
          [("needs_revision", JsonVal.bool true),
           ("issues", JsonVal.arr [JsonVal.str "fact X wrong"])] []).sourceIssues
        (ReviewResult.mk
          [("needs_revision", JsonVal.bool true),
           ("issues", JsonVal.arr [JsonVal.str "fact X wrong"])] []).styleIssues) =
      .autoRevise ⟨.skip, ["fact X wrong"], [], []⟩ :=
  (skip_feedback_reconciliation
    (ReviewResult.mk
      [("needs_revision", JsonVal.bool true),
       ("issues", JsonVal.arr [JsonVal.str "fact X wrong"])] [])
    ⟨false, false, []⟩ rfl rfl).2.1 rfl

/-- C7: the final style verdict equals the reviewer's own flag OR-ed with
the three forcing rules, so a consistency score strictly below 0.7 forces
`needs_revision = true` regardless of the flag, while a score of exactly
0.70 with benign other fields is not forced by the threshold rule. -/
theorem style_threshold_forces_revision (p : ParsedStyle) :
    ((review_style_data p).needs_revision =
      (p.needs_revision.getD false ||
        decide (p.consistency_score.getD (8/10) < 7/10) ||
        !p.issues.isEmpty || !(p.matches_tone.getD true) ||
        !(p.matches_voice.getD true))) ∧
    (p.consistency_score.getD (8/10) < 7/10 →
      (review_style_data p).needs_revision = true) ∧
    ((review_style_data
        ⟨some (7/10), some true, some true, [], p.suggestions,
          some false⟩).needs_revision = false) := by
  have key : (review_style_data p).needs_revision =
      (p.needs_revision.getD false ||
        decide (p.consistency_score.getD (8/10) < 7/10) ||
        !p.issues.isEmpty || !(p.matches_tone.getD true) ||
        !(p.matches_voice.getD true)) := by
    simp only [review_style_data, buildReviewData, applyStyleThresholds]
    split_ifs with h1 h2 h3 <;> simp_all
    tauto
  refine ⟨key, fun h => ?_, ?_⟩
  · rw [key]; simp [h]
  · simp only [review_style_data, buildReviewData, applyStyleThresholds]
    norm_num

/-- C7 witness: a parsed score of exactly 0.69 with the reviewer's own
flag false still yields `needs_revision = true`. -/
theorem style_threshold_forces_revision_witness :
    (review_style_data
      ⟨some (69/100), some true, some true, [], [], some false⟩).needs_revision
      = true :=
  (style_threshold_forces_revision
    ⟨some (69/100), some true, some true, [], [], some false⟩).2.1 (by norm_num)

theorem preLoop_resume (env : CliEnv) (s : SessionState)
    (h : s.stage = "draft_written" ∨ s.stage = "revision_complete") :
    preLoop env s = ([], s) := by
  rcases h with h | h <;> simp [preLoop, h]

theorem cliLoop_trace_ops (env : CliEnv) (fuel : Nat) :
    ∀ (s : SessionState) (p : WorkflowOp × String),
      p ∈ (cliLoop env fuel s).1 →
      p.1 = WorkflowOp.review ∨ p.1 = WorkflowOp.revision := by
  induction fuel with
  | zero => intro s p hp; simp [cliLoop] at hp
  | succ fuel ih =>
    intro s p hp
    simp only [cliLoop] at hp
    split at hp
    · split at hp
      · simp at hp
      · split at hp
        · simp at hp
          rw [hp]
          left; rfl
        · simp only [List.append_assoc, List.mem_append,
            List.mem_singleton] at hp
          rcases hp with hp | hp | hp
          · rw [hp]; left; rfl
          · rw [hp]; right; rfl
          · exact ih _ p hp
        · simp only [List.mem_append, List.mem_singleton] at hp
          rcases hp with hp | hp
          · rw [hp]; left; rfl
          · exact ih _ p hp
        · simp only [List.append_assoc, List.mem_append,
            List.mem_singleton] at hp
          rcases hp with hp | hp | hp
          · rw [hp]; left; rfl
          · rw [hp]; right; rfl
          · exact ih _ p hp
    · simp at hp

theorem preLoop_trace_ops (env : CliEnv) (s : SessionState) :
    ∀ p ∈ (preLoop env s).1,
      (p.1 = WorkflowOp.draftGeneration → p.2 = "style_extracted") ∧
      (p.1 = WorkflowOp.styleExtraction → p.2 = "initialized") := by
  intro p hp
  unfold preLoop at hp
  by_cases h1 : s.stage = "initialized"
  · rw [if_pos h1] at hp
    dsimp only at hp
    rw [if_pos (show (runStyleExtractionS env s).stage = "style_extracted"
      from rfl)] at hp
    simp only [List.mem_append, List.mem_singleton] at hp
    rcases hp with hp | hp <;> rw [hp]
    · exact ⟨(fun h => nomatch h), fun _ => h1⟩
    · exact ⟨(fun _ => rfl), fun h => nomatch h⟩
  · rw [if_neg h1] at hp
    dsimp only at hp
    by_cases h2 : s.stage = "style_extracted"
    · rw [if_pos h2] at hp
      simp only [List.nil_append, List.mem_singleton] at hp
      rw [hp]
      exact ⟨(fun _ => h2), fun h => nomatch h⟩
    · rw [if_neg h2] at hp
      simp at hp

/-- C2: a session persisted at stage `draft_written` or
`revision_complete` resumes directly in the review/revision loop — the
pre-loop stage dispatch runs nothing — and the whole resumed run only
ever invokes the review and revision operations; moreover, from any
starting stage, draft generation is invoked only while the live stage is
`style_extracted` and style extraction only while it is `initialized`. -/
theorem resume_skips_completed_stages (env : CliEnv) (fuel : Nat)
    (s : SessionState)
    (h : s.stage = "draft_written" ∨ s.stage = "revision_complete") :
    preLoop env s = ([], s) ∧
    (∀ p ∈ (cliRun env fuel s).1,
      p.1 = WorkflowOp.review ∨ p.1 = WorkflowOp.revision) ∧
    (∀ s' : SessionState, ∀ p ∈ (cliRun env fuel s').1,
      (p.1 = WorkflowOp.draftGeneration → p.2 = "style_extracted") ∧
      (p.1 = WorkflowOp.styleExtraction → p.2 = "initialized")) := by
  have hpre := preLoop_resume env s h
  refine ⟨hpre, ?_, ?_⟩
  · intro p hp
    simp only [cliRun, hpre, List.nil_append] at hp
    exact cliLoop_trace_ops env fuel s p hp
  · intro s' p hp
    simp only [cliRun, List.mem_append] at hp
    rcases hp with hp | hp
    · exact preLoop_trace_ops env s' p hp
    · rcases cliLoop_trace_ops env fuel _ p hp with h' | h' <;>
        exact ⟨(fun hd => nomatch h'.symm.trans hd),
          fun hs => nomatch h'.symm.trans hs⟩

/-- C2 witness: a crash persisted at `draft_written` resumes without
re-entering style extraction or draft generation. -/
theorem resume_skips_completed_stages_witness :
    preLoop
      (CliEnv.mk (fun _ => ReviewResult.mk [] []) (fun _ => ⟨false, false, []⟩)
        (fun _ => "") [] "" "t")
      { SessionState.new "s" "i" with stage := "draft_written" } =
    ([], { SessionState.new "s" "i" with stage := "draft_written" }) :=
  (resume_skips_completed_stages
    (CliEnv.mk (fun _ => ReviewResult.mk [] []) (fun _ => ⟨false, false, []⟩)
      (fun _ => "") [] "" "t") 1
    { SessionState.new "s" "i" with stage := "draft_written" }
    (Or.inl rfl)).1
